import Mathlib

/-
Verification development for the WhatsApp bulk messaging bot (`server.js`,
with `src/unnamed/part_001` an earlier, behaviourally identical variant of
the same file).

The model covers:
  * `formatPhoneNumber` (server.js lines 179-187): contact normalization;
  * the per-recipient retry loop inside `startCampaign` (lines 697-752);
  * the outer dispatch loop of `startCampaign` (lines 688-767) together
    with its finalization (lines 769-806) and the `/stop` handler
    (lines 808-821);
  * the live-array aliasing of the `contacts` parameter of `startCampaign`
    (the loop iterates the array that also backs `state.contacts`);
  * the command layer around `/send` (lines 570-631): the already-running
    guard of the `/send` handler and the guard-free `confirmListener` /
    `startCampaign` path.

Modelling conventions: control-channel (Telegram) notifications are treated
as infallible event emissions (recorded, never throwing); timing pauses
(inter-message pacing, batch breaks, the fixed 3000 ms retry backoff) are
recorded as data rather than as real time; the asynchronous delivery
tracker (`delivered` counter) is omitted because no claim mentions it.
-/

/-- Characters kept by the `phone.replace(/\D/g, '')` step: the decimal
digits. -/
def digitsOf (l : List Char) : List Char := l.filter (fun c => c.isDigit)

/-- The default country prefix `'212'` hard-coded in `formatPhoneNumber`. -/
def countryCode : List Char := ['2', '1', '2']

/-- The alternate accepted country prefix `'1'`. -/
def altCode : List Char := ['1']

/-- The channel address suffix `'@c.us'` appended by `formatPhoneNumber`. -/
def channelSuffix : List Char := ['@', 'c', '.', 'u', 's']

/-- The conditional-prepend step of `formatPhoneNumber` (server.js 182-184):
if the digit string does not start with `212` nor `1` and is shorter than
12 digits, prepend `212`. -/
def normalizeDigits (d : List Char) : List Char :=
  if !(countryCode.isPrefixOf d) && !(altCode.isPrefixOf d) && decide (d.length < 12)
  then countryCode ++ d
  else d

/-- `formatPhoneNumber` (server.js 179-187): strip non-digits, conditionally
prepend the default country prefix, append `@c.us`. -/
def formatPhoneNumber (phone : String) : String :=
  String.mk (normalizeDigits (digitsOf phone.data) ++ channelSuffix)

theorem mk_data (l : List Char) : (String.mk l).data = l := rfl

theorem digitsOf_append (a b : List Char) :
    digitsOf (a ++ b) = digitsOf a ++ digitsOf b := by
  simp [digitsOf]

theorem digitsOf_idem (l : List Char) : digitsOf (digitsOf l) = digitsOf l := by
  simp [digitsOf, List.filter_filter]

theorem countryCode_isPrefixOf_append (d : List Char) :
    countryCode.isPrefixOf (countryCode ++ d) = true := by
  simp [countryCode, List.isPrefixOf]

theorem digitsOf_channelSuffix : digitsOf channelSuffix = [] := rfl

theorem digitsOf_countryCode : digitsOf countryCode = countryCode := rfl

theorem normalizeDigits_idem (d : List Char) :
    normalizeDigits (normalizeDigits d) = normalizeDigits d := by
  unfold normalizeDigits
  by_cases hc : (!(countryCode.isPrefixOf d) && !(altCode.isPrefixOf d)
      && decide (d.length < 12)) = true
  · rw [if_pos hc, if_neg]
    simp [countryCode_isPrefixOf_append]
  · rw [if_neg hc, if_neg hc]

theorem digitsOf_normalizeDigits (l : List Char) :
    digitsOf (normalizeDigits (digitsOf l)) = normalizeDigits (digitsOf l) := by
  unfold normalizeDigits
  by_cases hc : (!(countryCode.isPrefixOf (digitsOf l)) && !(altCode.isPrefixOf (digitsOf l))
      && decide ((digitsOf l).length < 12)) = true
  · rw [if_pos hc, digitsOf_append, digitsOf_countryCode, digitsOf_idem]
  · rw [if_neg hc, digitsOf_idem]

/-- C10: normalization is idempotent: re-normalizing the output of
`formatPhoneNumber` (digit stripping, conditional prefix, `@c.us` suffix)
returns the same identifier, so repeated normalization cannot create a new
distinct registry entry. -/
theorem formatPhoneNumber_idem (s : String) :
    formatPhoneNumber (formatPhoneNumber s) = formatPhoneNumber s := by
  unfold formatPhoneNumber
  rw [mk_data, digitsOf_append, digitsOf_channelSuffix, List.append_nil,
    digitsOf_normalizeDigits, normalizeDigits_idem]

/-- C5 counterexample: `formatPhoneNumber "0612345678"` is not the
identifier `"212612345678@c.us"` stated by the claim: the code strips
non-digits but never drops a leading zero before prepending the default
prefix. -/
theorem formatPhoneNumber_example_ne :
    formatPhoneNumber "0612345678" ≠ "212612345678@c.us" := by decide

/-- C5 amended: `formatPhoneNumber "0612345678"` prepends the default
prefix `212` to the full digit string, keeping the leading zero, yielding
`"2120612345678@c.us"`. -/
theorem formatPhoneNumber_example :
    formatPhoneNumber "0612345678" = "2120612345678@c.us" := by decide

/-- Outcome of one iteration of the per-recipient retry loop, as driven by
the external messaging channel client: `invalid` models `getNumberId`
returning null, `ok` a successful `sendMessage`, `checkErr` a throwing
`getNumberId`, `sendErr` a throwing `sendMessage` (both land in the same
`catch` block of server.js 738-752). -/
inductive Outcome where
  | invalid : Outcome
  | ok : Outcome
  | checkErr : String → Outcome
  | sendErr : String → Outcome
deriving DecidableEq

/-- One entry of `failedContacts`; the invalid-number entry (server.js 704)
carries no `attempts` field, modelled as `none`. -/
structure FailEntry where
  contact : String
  reason : String
  attempts : Option Nat
deriving DecidableEq

/-- Observable effect of processing one recipient through the retry loop
(server.js 697-753): counter increments, ledger entries appended, number of
`getNumberId` and `sendMessage` calls, the backoff pauses taken (ms), and
whether a send succeeded (which is what gates the progress report). -/
structure RecipResult where
  sentInc : Nat
  failedInc : Nat
  entries : List FailEntry
  checkCalls : Nat
  sendCalls : Nat
  backoffWaits : List Nat
  succeeded : Bool
deriving DecidableEq

/-- The body of `while (attempts < MAX_RETRIES && !sent)` (server.js
697-753). `attempts` is the JS counter at the top of the iteration and
`fuel = maxRetries - attempts` encodes the loop guard: every iteration
either exits the loop or increments `attempts`, so the guard fails exactly
when fuel runs out. The inner `if fuel = 0` mirrors
`if (attempts >= MAX_RETRIES)` after the increment in the catch block;
otherwise the code waits 3000 ms and re-enters the loop. -/
def processRecipientGo (contact : String) (behavior : Nat → Outcome) :
    Nat → Nat → RecipResult
  | _, 0 => ⟨0, 0, [], 0, 0, [], false⟩
  | attempts, fuel + 1 =>
    match behavior attempts with
    | Outcome.invalid => ⟨0, 1, [⟨contact, "Invalid number", none⟩], 1, 0, [], false⟩
    | Outcome.ok => ⟨1, 0, [], 1, 1, [], true⟩
    | Outcome.checkErr m =>
      if fuel = 0 then ⟨0, 1, [⟨contact, m, some (attempts + 1)⟩], 1, 0, [], false⟩
      else
        let rest := processRecipientGo contact behavior (attempts + 1) fuel
        ⟨rest.sentInc, rest.failedInc, rest.entries, 1 + rest.checkCalls,
          rest.sendCalls, 3000 :: rest.backoffWaits, rest.succeeded⟩
    | Outcome.sendErr m =>
      if fuel = 0 then ⟨0, 1, [⟨contact, m, some (attempts + 1)⟩], 1, 1, [], false⟩
      else
        let rest := processRecipientGo contact behavior (attempts + 1) fuel
        ⟨rest.sentInc, rest.failedInc, rest.entries, 1 + rest.checkCalls,
          1 + rest.sendCalls, 3000 :: rest.backoffWaits, rest.succeeded⟩

/-- Processing of one recipient: the retry loop entered with
`attempts = 0`. -/
def processRecipient (contact : String) (behavior : Nat → Outcome)
    (maxRetries : Nat) : RecipResult :=
  processRecipientGo contact behavior 0 maxRetries

/-- C6: a recipient whose existence check returns false on the first query
contributes exactly one `failed` increment, exactly one ledger entry with
reason "Invalid number" (and no attempts field), one lookup, zero
`sendMessage` calls, no backoff waits, and no `sent` increment. -/
theorem invalid_recipient_single_failure (contact : String)
    (behavior : Nat → Outcome) (maxRetries : Nat) (hm : 0 < maxRetries)
    (hb : behavior 0 = Outcome.invalid) :
    processRecipient contact behavior maxRetries =
      ⟨0, 1, [⟨contact, "Invalid number", none⟩], 1, 0, [], false⟩ := by
  obtain ⟨m, rfl⟩ : ∃ m, maxRetries = m + 1 := ⟨maxRetries - 1, by omega⟩
  simp [processRecipient, processRecipientGo, hb]

/-- Witness for C6 at a concrete recipient. -/
theorem invalid_recipient_single_failure_witness :
    0 < 3 ∧ (fun _ : Nat => Outcome.invalid) 0 = Outcome.invalid ∧
      processRecipient "212600000001@c.us" (fun _ => Outcome.invalid) 3 =
        ⟨0, 1, [⟨"212600000001@c.us", "Invalid number", none⟩], 1, 0, [], false⟩ :=
  ⟨by decide, rfl,
    invalid_recipient_single_failure "212600000001@c.us" _ 3 (by decide) rfl⟩

theorem processRecipientGo_sendErr_step (contact : String)
    (behavior : Nat → Outcome) (attempts fuel : Nat) (m : String)
    (hb : behavior attempts = Outcome.sendErr m) :
    processRecipientGo contact behavior attempts (fuel + 1 + 1) =
      (let rest := processRecipientGo contact behavior (attempts + 1) (fuel + 1)
       ⟨rest.sentInc, rest.failedInc, rest.entries, 1 + rest.checkCalls,
         1 + rest.sendCalls, 3000 :: rest.backoffWaits, rest.succeeded⟩) := by
  conv_lhs => rw [processRecipientGo]
  rw [hb]
  simp

theorem processRecipientGo_allSendErr (contact : String)
    (behavior : Nat → Outcome) (msgs : Nat → String)
    (hb : ∀ j, behavior j = Outcome.sendErr (msgs j)) :
    ∀ k attempts,
      processRecipientGo contact behavior attempts (k + 1) =
        ⟨0, 1, [⟨contact, msgs (attempts + k), some (attempts + k + 1)⟩],
          k + 1, k + 1, List.replicate k 3000, false⟩ := by
  intro k
  induction k with
  | zero =>
    intro attempts
    simp [processRecipientGo, hb attempts]
  | succ n ih =>
    intro attempts
    rw [processRecipientGo_sendErr_step contact behavior attempts n
      (msgs attempts) (hb attempts)]
    rw [ih (attempts + 1)]
    have h1 : attempts + 1 + n = attempts + (n + 1) := by omega
    have h2 : attempts + 1 + n + 1 = attempts + (n + 1) + 1 := by omega
    simp [h1, h2, List.replicate_succ]
    omega

/-- C7: a recipient whose existence check succeeds but whose send throws on
every attempt is retried exactly `maxRetries` times (`maxRetries` calls to
`sendMessage`), with a fixed 3000 ms backoff wait between consecutive
attempts (`maxRetries - 1` waits), after which `failed` is incremented once
and a single ledger entry is recorded whose attempts field is `maxRetries`
and whose reason is the last attempt's error message. -/
theorem allFail_exhausts_retries (contact : String) (behavior : Nat → Outcome)
    (msgs : Nat → String) (maxRetries : Nat) (hm : 0 < maxRetries)
    (hb : ∀ j, behavior j = Outcome.sendErr (msgs j)) :
    processRecipient contact behavior maxRetries =
      ⟨0, 1, [⟨contact, msgs (maxRetries - 1), some maxRetries⟩],
        maxRetries, maxRetries, List.replicate (maxRetries - 1) 3000, false⟩ := by
  obtain ⟨k, rfl⟩ : ∃ k, maxRetries = k + 1 := ⟨maxRetries - 1, by omega⟩
  have h := processRecipientGo_allSendErr contact behavior msgs hb k 0
  simpa [processRecipient] using h

/-- Witness for C7 at a concrete recipient with the default
`MAX_RETRIES = 3`. -/
theorem allFail_exhausts_retries_witness :
    0 < 3 ∧
      (∀ j : Nat, (fun _ : Nat => Outcome.sendErr "boom") j
        = Outcome.sendErr ((fun _ : Nat => "boom") j)) ∧
      processRecipient "212600000002@c.us" (fun _ => Outcome.sendErr "boom") 3 =
        ⟨0, 1, [⟨"212600000002@c.us", "boom", some 3⟩], 3, 3,
          List.replicate 2 3000, false⟩ :=
  ⟨by decide, fun _ => rfl,
    allFail_exhausts_retries "212600000002@c.us" _ _ 3 (by decide) (fun _ => rfl)⟩

theorem processRecipientGo_checkErr_step (contact : String)
    (behavior : Nat → Outcome) (attempts fuel : Nat) (m : String)
    (hb : behavior attempts = Outcome.checkErr m) :
    processRecipientGo contact behavior attempts (fuel + 1 + 1) =
      (let rest := processRecipientGo contact behavior (attempts + 1) (fuel + 1)
       ⟨rest.sentInc, rest.failedInc, rest.entries, 1 + rest.checkCalls,
         rest.sendCalls, 3000 :: rest.backoffWaits, rest.succeeded⟩) := by
  conv_lhs => rw [processRecipientGo]
  rw [hb]
  simp

theorem processRecipientGo_one (contact : String) (behavior : Nat → Outcome) :
    ∀ fuel attempts, 0 < fuel →
      (processRecipientGo contact behavior attempts fuel).sentInc +
        (processRecipientGo contact behavior attempts fuel).failedInc = 1 := by
  intro fuel
  induction fuel with
  | zero => intro attempts h; exact absurd h (by omega)
  | succ f ih =>
    intro attempts _
    cases hb : behavior attempts with
    | invalid => simp [processRecipientGo, hb]
    | ok => simp [processRecipientGo, hb]
    | checkErr m =>
      by_cases hf : f = 0
      · subst hf
        simp [processRecipientGo, hb]
      · obtain ⟨g, rfl⟩ : ∃ g, f = g + 1 := ⟨f - 1, by omega⟩
        rw [processRecipientGo_checkErr_step contact behavior attempts g m hb]
        simpa using ih (attempts + 1) (by omega)
    | sendErr m =>
      by_cases hf : f = 0
      · subst hf
        simp [processRecipientGo, hb]
      · obtain ⟨g, rfl⟩ : ∃ g, f = g + 1 := ⟨f - 1, by omega⟩
        rw [processRecipientGo_sendErr_step contact behavior attempts g m hb]
        simpa using ih (attempts + 1) (by omega)

theorem processRecipient_one (contact : String) (behavior : Nat → Outcome)
    (maxRetries : Nat) (hm : 0 < maxRetries) :
    (processRecipient contact behavior maxRetries).sentInc +
      (processRecipient contact behavior maxRetries).failedInc = 1 :=
  processRecipientGo_one contact behavior maxRetries 0 hm

/-- The status values of `state.currentCampaign.status`. -/
inductive CampaignStatus where
  | running : CampaignStatus
  | completed : CampaignStatus
  | stopped : CampaignStatus
deriving DecidableEq

/-- One recipient of a campaign run: its identifier and the channel
client's responses to the successive attempts (indexed by the value of the
JS `attempts` counter when the attempt starts). -/
structure Recipient where
  contact : String
  behavior : Nat → Outcome

/-- Observable result of one execution of `startCampaign`'s dispatch loop
and finalization (server.js 688-806): final counters, the failure ledger,
the per-recipient results in processing order (recipients the loop never
reached contribute nothing), the indices after which a progress report was
emitted, the status recorded by the finalization, and whether the loop
exited through the status check rather than by exhausting the list. -/
structure RunResult where
  sent : Nat
  failed : Nat
  failedContacts : List FailEntry
  processedResults : List RecipResult
  progressEvents : List Nat
  finalStatus : CampaignStatus
  stoppedObserved : Bool
deriving DecidableEq

/-- Whether the cooperative stop marker set by the `/stop` handler
(server.js 819) is visible at the top of loop iteration `i`: `some k`
models a stop request processed while recipient `k - 1` was in flight,
first observable at the top of iteration `k`; `none` models a run with no
stop request. -/
def stopHit (stopAt : Option Nat) (i : Nat) : Bool :=
  match stopAt with
  | none => false
  | some k => decide (k ≤ i)

/-- The dispatch loop `for (let i = 0; i < contacts.length; i++)`
(server.js 688-767) over a fixed recipient list (a run during which the
registry array is not mutated), followed by the finalization of
server.js 769-806. The loop first checks the bound, then the cooperative
status check (`if (state.currentCampaign.status !== 'running') break`);
the progress report (726-736) sits inside the success path of the `try`
and fires when `(i + 1) % 10 === 0 || i === contacts.length - 1`. The
finalization assigns status 'completed' unconditionally on every exit
path (line 769). -/
def runGo (maxRetries total : Nat) (stopAt : Option Nat) :
    List Recipient → Nat → RunResult
  | [], _ => ⟨0, 0, [], [], [], CampaignStatus.completed, false⟩
  | r :: rest, i =>
    if stopHit stopAt i then
      ⟨0, 0, [], [], [], CampaignStatus.completed, true⟩
    else
      let pr := processRecipient r.contact r.behavior maxRetries
      let rr := runGo maxRetries total stopAt rest (i + 1)
      ⟨pr.sentInc + rr.sent, pr.failedInc + rr.failed,
        pr.entries ++ rr.failedContacts,
        pr :: rr.processedResults,
        (if pr.succeeded && ((i + 1) % 10 == 0 || i == total - 1)
         then [i] else []) ++ rr.progressEvents,
        rr.finalStatus, rr.stoppedObserved⟩

/-- One full campaign run: `total` is the recipient count recorded at
creation (`total: contacts.length`, server.js 675), which for an unmutated
registry equals the list length. -/
def runCampaign (maxRetries : Nat) (recips : List Recipient)
    (stopAt : Option Nat) : RunResult :=
  runGo maxRetries recips.length stopAt recips 0

/-- C1: code-bug witness: a two-recipient campaign whose stop request is
observed at the top of iteration 1 exits the loop through the status
check, yet the finalization (server.js 769) still records status
'completed' (and that is the record appended to history). -/
theorem stopped_run_recorded_completed :
    (runCampaign 3 [⟨"212600000007@c.us", fun _ => Outcome.ok⟩,
        ⟨"212600000008@c.us", fun _ => Outcome.ok⟩] (some 1)).stoppedObserved
        = true ∧
      (runCampaign 3 [⟨"212600000007@c.us", fun _ => Outcome.ok⟩,
          ⟨"212600000008@c.us", fun _ => Outcome.ok⟩] (some 1)).finalStatus
        = CampaignStatus.completed ∧
      (runCampaign 3 [⟨"212600000007@c.us", fun _ => Outcome.ok⟩,
          ⟨"212600000008@c.us", fun _ => Outcome.ok⟩] (some 1)).sent = 1 := by
  exact ⟨rfl, rfl, rfl⟩

theorem runGo_sent_failed (maxRetries total : Nat) (stopAt : Option Nat)
    (hm : 0 < maxRetries) :
    ∀ (recips : List Recipient) (i : Nat),
      (runGo maxRetries total stopAt recips i).sent +
          (runGo maxRetries total stopAt recips i).failed ≤ recips.length ∧
        ((runGo maxRetries total stopAt recips i).stoppedObserved = false →
          (runGo maxRetries total stopAt recips i).sent +
              (runGo maxRetries total stopAt recips i).failed
            = recips.length) := by
  intro recips
  induction recips with
  | nil => intro i; simp [runGo]
  | cons r rest ih =>
    intro i
    by_cases hs : stopHit stopAt i = true
    · simp [runGo, hs]
    · have h1 := processRecipient_one r.contact r.behavior maxRetries hm
      have h2 := ih (i + 1)
      simp only [runGo, hs, Bool.false_eq_true, if_false, List.length_cons]
      constructor
      · have := h2.1
        omega
      · intro hso
        have := h2.2 hso
        omega

/-- C2 amended: for every campaign run over the creation-time snapshot
(registry not mutated mid-run) with a positive retry bound,
`sent + failed` never exceeds the snapshot length (the `total` recorded at
creation), and when the loop exhausted the snapshot without observing a
stop request, `sent + failed` equals it exactly. The finalization records
status 'completed' on both exit paths, so a recorded status of
'completed' does not by itself imply the equality. -/
theorem sent_failed_bounds (maxRetries : Nat) (recips : List Recipient)
    (stopAt : Option Nat) (hm : 0 < maxRetries) :
    (runCampaign maxRetries recips stopAt).sent +
        (runCampaign maxRetries recips stopAt).failed ≤ recips.length ∧
      ((runCampaign maxRetries recips stopAt).stoppedObserved = false →
        (runCampaign maxRetries recips stopAt).sent +
            (runCampaign maxRetries recips stopAt).failed = recips.length) :=
  runGo_sent_failed maxRetries recips.length stopAt hm recips 0

/-- Witness for C2 at a concrete one-recipient run. -/
theorem sent_failed_bounds_witness :
    0 < 3 ∧
      ((runCampaign 3 [⟨"212600000004@c.us", fun _ => Outcome.ok⟩] none).sent +
          (runCampaign 3 [⟨"212600000004@c.us", fun _ => Outcome.ok⟩]
            none).failed ≤ 1 ∧
        ((runCampaign 3 [⟨"212600000004@c.us", fun _ => Outcome.ok⟩]
            none).stoppedObserved = false →
          (runCampaign 3 [⟨"212600000004@c.us", fun _ => Outcome.ok⟩]
              none).sent +
            (runCampaign 3 [⟨"212600000004@c.us", fun _ => Outcome.ok⟩]
              none).failed = 1)) :=
  ⟨by decide, sent_failed_bounds 3 _ none (by decide)⟩

/-- C2 counterexample: a two-recipient run stopped after recipient 0 is
recorded with final status 'completed' although `sent + failed = 1` is
strictly below the snapshot length 2, so "status Completed implies
sent + failed = total" fails on the code. -/
theorem completed_status_without_equality :
    (runCampaign 3 [⟨"212600000005@c.us", fun _ => Outcome.ok⟩,
        ⟨"212600000006@c.us", fun _ => Outcome.ok⟩] (some 1)).finalStatus
      = CampaignStatus.completed ∧
    (runCampaign 3 [⟨"212600000005@c.us", fun _ => Outcome.ok⟩,
        ⟨"212600000006@c.us", fun _ => Outcome.ok⟩] (some 1)).sent +
        (runCampaign 3 [⟨"212600000005@c.us", fun _ => Outcome.ok⟩,
          ⟨"212600000006@c.us", fun _ => Outcome.ok⟩] (some 1)).failed
      ≠ ([⟨"212600000005@c.us", fun _ => Outcome.ok⟩,
          ⟨"212600000006@c.us", fun _ => Outcome.ok⟩] : List Recipient).length := by
  exact ⟨rfl, by decide⟩

theorem runGo_processed_stop (maxRetries total s : Nat) :
    ∀ (recips : List Recipient) (i : Nat),
      (runGo maxRetries total (some s) recips i).processedResults =
        (recips.take (s - i)).map
          (fun r => processRecipient r.contact r.behavior maxRetries) := by
  intro recips
  induction recips with
  | nil => intro i; simp [runGo]
  | cons r rest ih =>
    intro i
    by_cases hs : s ≤ i
    · have h1 : stopHit (some s) i = true := by
        simp [stopHit]
        omega
      have h0 : s - i = 0 := by omega
      simp [runGo, h1, h0]
    · have h1 : stopHit (some s) i = false := by
        simp [stopHit]
        omega
      have h2 : s - i = (s - (i + 1)) + 1 := by omega
      rw [h2]
      simp [runGo, h1, List.take_succ_cons, ih (i + 1)]

theorem runGo_sent_eq_sum (maxRetries total : Nat) (stopAt : Option Nat) :
    ∀ (recips : List Recipient) (i : Nat),
      (runGo maxRetries total stopAt recips i).sent =
        ((runGo maxRetries total stopAt recips i).processedResults.map
          (fun pr => pr.sentInc)).sum := by
  intro recips
  induction recips with
  | nil => intro i; simp [runGo]
  | cons r rest ih =>
    intro i
    by_cases hs : stopHit stopAt i = true
    · simp [runGo, hs]
    · simp [runGo, hs, ih (i + 1)]

/-- C9: cooperative cancellation boundary: when a stop request is processed
while recipient `k` is in flight (first observable at the top of iteration
`k + 1`), the processed results are exactly the complete `processRecipient`
outcomes of recipients `0..k` in order — recipient `k`'s retry sequence
runs to completion and its counters are still applied — and no recipient
after index `k` is ever processed (it contributes no existence check and no
send attempt, having no entry in the processed sequence). -/
theorem stop_during_recipient_k (maxRetries : Nat) (recips : List Recipient)
    (k : Nat) :
    (runCampaign maxRetries recips (some (k + 1))).processedResults =
        (recips.take (k + 1)).map
          (fun r => processRecipient r.contact r.behavior maxRetries) ∧
      (runCampaign maxRetries recips (some (k + 1))).sent =
        (((recips.take (k + 1)).map
            (fun r => processRecipient r.contact r.behavior maxRetries)).map
          (fun pr => pr.sentInc)).sum := by
  have h : (runCampaign maxRetries recips (some (k + 1))).processedResults =
      (recips.take (k + 1)).map
        (fun r => processRecipient r.contact r.behavior maxRetries) := by
    have h0 := runGo_processed_stop maxRetries recips.length (k + 1) recips 0
    simpa [runCampaign] using h0
  refine ⟨h, ?_⟩
  have h2 : (runCampaign maxRetries recips (some (k + 1))).sent =
      ((runCampaign maxRetries recips (some (k + 1))).processedResults.map
        (fun pr => pr.sentInc)).sum :=
    runGo_sent_eq_sum maxRetries recips.length (some (k + 1)) recips 0
  rw [h2, h]

theorem runGo_progress_mem (maxRetries total : Nat) :
    ∀ (recips : List Recipient) (i j : Nat),
      j ∈ (runGo maxRetries total none recips i).progressEvents ↔
        ∃ k, ∃ h : k < recips.length, i + k = j ∧
          (processRecipient (recips.get ⟨k, h⟩).contact
              (recips.get ⟨k, h⟩).behavior maxRetries).succeeded = true ∧
          ((j + 1) % 10 = 0 ∨ j = total - 1) := by
  intro recips
  induction recips with
  | nil =>
    intro i j
    simp [runGo]
  | cons r rest ih =>
    intro i j
    have hrw : (runGo maxRetries total none (r :: rest) i).progressEvents =
        (if (processRecipient r.contact r.behavior maxRetries).succeeded
            && ((i + 1) % 10 == 0 || i == total - 1) then [i] else []) ++
          (runGo maxRetries total none rest (i + 1)).progressEvents := rfl
    rw [hrw, List.mem_append]
    constructor
    · rintro (hj | hj)
      · by_cases hc : ((processRecipient r.contact r.behavior maxRetries).succeeded
            && ((i + 1) % 10 == 0 || i == total - 1)) = true
        · rw [if_pos hc] at hj
          simp only [List.mem_singleton] at hj
          subst hj
          rw [Bool.and_eq_true, Bool.or_eq_true] at hc
          refine ⟨0, by simp only [List.length_cons]; omega, by omega, hc.1, ?_⟩
          rcases hc.2 with h | h
          · left
            simpa using h
          · right
            simpa using h
        · rw [if_neg hc] at hj
          cases hj
      · obtain ⟨k, hk, hkj, hsucc, hmod⟩ := (ih (i + 1) j).mp hj
        refine ⟨k + 1, by simp only [List.length_cons]; omega, by omega, hsucc, hmod⟩
    · rintro ⟨k, hk, hkj, hsucc, hmod⟩
      cases k with
      | zero =>
        have hij : i = j := by omega
        subst hij
        left
        have hc : ((processRecipient r.contact r.behavior maxRetries).succeeded
            && ((i + 1) % 10 == 0 || i == total - 1)) = true := by
          rw [Bool.and_eq_true, Bool.or_eq_true]
          refine ⟨hsucc, ?_⟩
          rcases hmod with h | h
          · left
            simpa using h
          · right
            simpa using h
        rw [if_pos hc]
        simp
      | succ n =>
        right
        refine (ih (i + 1) j).mpr
          ⟨n, by simp only [List.length_cons] at hk; omega, by omega, hsucc, hmod⟩

/-- C8 amended: during a run over the snapshot, a progress report is
emitted after recipient `j` exactly when that recipient's send succeeded
and `j` is a 10th-position index (`(j + 1) % 10 = 0`) or the last snapshot
index. In particular a recipient whose processing failed — including a
failed final recipient — emits no progress report, because the emission
sits inside the success branch of the `try` (server.js 726-736). -/
theorem progress_emitted_iff (maxRetries : Nat) (recips : List Recipient)
    (j : Nat) (hj : j < recips.length) :
    j ∈ (runCampaign maxRetries recips none).progressEvents ↔
      ((processRecipient (recips.get ⟨j, hj⟩).contact
          (recips.get ⟨j, hj⟩).behavior maxRetries).succeeded = true ∧
        ((j + 1) % 10 = 0 ∨ j = recips.length - 1)) := by
  have h := runGo_progress_mem maxRetries recips.length recips 0 j
  constructor
  · intro hmem
    obtain ⟨k, hk, hkj, hsucc, hmod⟩ := h.mp hmem
    obtain rfl : k = j := by omega
    exact ⟨hsucc, hmod⟩
  · rintro ⟨hsucc, hmod⟩
    exact h.mpr ⟨j, hj, by omega, hsucc, hmod⟩

/-- Witness for C8: the sole (hence last) recipient succeeds, so a progress
report is emitted after it. -/
theorem progress_emitted_iff_witness :
    0 ∈ (runCampaign 3 [⟨"212600000009@c.us", fun _ => Outcome.ok⟩]
      none).progressEvents :=
  (progress_emitted_iff 3 [⟨"212600000009@c.us", fun _ => Outcome.ok⟩] 0
    (by decide)).mpr ⟨rfl, Or.inr rfl⟩

/-- C8 counterexample: a one-recipient run whose single (hence last)
recipient fails the existence check processes that recipient but emits no
progress report at all, contradicting "unconditionally after the last
processed recipient, regardless of whether that recipient's send succeeded
or failed". -/
theorem failed_last_recipient_no_progress :
    (runCampaign 3 [⟨"212600000010@c.us", fun _ => Outcome.invalid⟩]
          none).processedResults.length = 1 ∧
      (runCampaign 3 [⟨"212600000010@c.us", fun _ => Outcome.invalid⟩]
          none).progressEvents = [] := by
  exact ⟨rfl, rfl⟩

/-- The dispatch loop as actually written iterates its `contacts`
parameter, which aliases the live `state.contacts` array: the caller
passes `state.contacts` itself (server.js 623) and `/addcontact` pushes
onto that same array (server.js 486) with no campaign-running guard, while
the copied snapshot `[...contacts]` stored in the campaign record
(server.js 674) is never read by the loop. `pushes i` is the list of
contacts appended to the registry while recipient `i` is being processed;
`/clearcontacts` (server.js 564) rebinds `state.contacts` to a fresh array
and therefore never shows up here — it cannot affect the loop's alias.
`fuel` bounds the recursion; the JS loop re-reads `contacts.length` every
iteration. Returns the contacts the loop processes, in order. -/
def runAliasedGo (pushes : Nat → List String) :
    Nat → List String → Nat → List String
  | 0, _, _ => []
  | fuel + 1, live, i =>
    if h : i < live.length then
      live.get ⟨i, h⟩ :: runAliasedGo pushes fuel (live ++ pushes i) (i + 1)
    else []

/-- The sequence of contacts the dispatch loop attempts, starting from the
registry contents at campaign creation, under mid-run registry pushes. -/
def processedAliased (registry : List String) (pushes : Nat → List String)
    (fuel : Nat) : List String :=
  runAliasedGo pushes fuel registry 0

/-- C3: code-bug witness: a campaign created with a single-contact registry
(`total = 1`) whose operator issues `/addcontact` for a second number while
recipient 0 is being processed: the loop also processes the added contact,
so the processed sequence is not the creation-time snapshot and is longer
than `total`. -/
theorem aliased_registry_extends_campaign :
    processedAliased ["212600000011@c.us"]
        (fun i => if i = 0 then ["212600000012@c.us"] else []) 5 =
      ["212600000011@c.us", "212600000012@c.us"] ∧
    (["212600000011@c.us"] : List String).length = 1 := by
  exact ⟨rfl, rfl⟩

/-- One campaign record as created by `startCampaign` (server.js 671-682).
Records live on a heap modelled as a list in creation order;
`state.currentCampaign` is a reference into that heap. -/
structure CampaignRec where
  status : CampaignStatus
  sent : Nat
  failed : Nat
  total : Nat
  snapshot : List String
deriving DecidableEq

/-- Replies of the `/send` command handler's guard chain
(server.js 577-587). -/
inductive SendReply where
  | notReady : SendReply
  | noContacts : SendReply
  | alreadyRunning : SendReply
  | promptForMessage : SendReply
deriving DecidableEq

/-- The command-layer state around `/send`: the connectivity flag, the
live registry, the heap of campaign records ever created, the
current-campaign slot as a heap reference, and whether a `/send` dialog is
pending its final confirmation (the dialog's message-collection step is
collapsed into the pending flag; only the confirmation step matters for
the guard). -/
structure BotState where
  whatsappReady : Bool
  contacts : List String
  records : List CampaignRec
  currentId : Option Nat
  pendingConfirm : Bool
deriving DecidableEq

/-- `state.currentCampaign && state.currentCampaign.status === 'running'`
(server.js 585). -/
def currentRunning (s : BotState) : Bool :=
  match s.currentId with
  | none => false
  | some i =>
    match s.records.get? i with
    | some c => decide (c.status = CampaignStatus.running)
    | none => false

/-- The `/send` command handler's guards (server.js 577-589): reject when
the channel is not ready, when the registry is empty, or when the current
campaign is running; otherwise open the dialog that will collect the
message and then wait for the confirmation. -/
def handleSendCmd (s : BotState) : BotState × SendReply :=
  if !s.whatsappReady then (s, SendReply.notReady)
  else if s.contacts.isEmpty then (s, SendReply.noContacts)
  else if currentRunning s then (s, SendReply.alreadyRunning)
  else ({ s with pendingConfirm := true }, SendReply.promptForMessage)

/-- The `confirmListener` YES path (server.js 621-624): it calls
`startCampaign` directly, and neither it nor `startCampaign` (671-682)
re-checks whether a campaign is already running; `startCampaign` creates a
fresh record with status 'running' and overwrites the current-campaign
slot with it. -/
def handleConfirmYes (s : BotState) : BotState :=
  if s.pendingConfirm then
    { s with
      records := s.records ++
        [⟨CampaignStatus.running, 0, 0, s.contacts.length, s.contacts⟩],
      currentId := some s.records.length,
      pendingConfirm := false }
  else s

/-- Number of campaign records in existence whose status is 'running'. -/
def runningCount (s : BotState) : Nat :=
  (s.records.filter (fun c => decide (c.status = CampaignStatus.running))).length

/-- C4: code-bug witness: from a state with one running campaign in the
slot and a `/send` dialog awaiting its confirmation (reachable, e.g. by
opening two `/send` dialogs while idle and confirming the first, or by one
text message fanning out to two registered listeners), processing the YES
creates a second record with status 'running' and overwrites the slot:
two campaign records are 'running' at once and the first is no longer
referenced by the slot, instead of the confirmation failing with an
already-running rejection. -/
theorem confirm_while_running_starts_second :
    runningCount (handleConfirmYes
        ⟨true, ["212600000013@c.us"],
          [⟨CampaignStatus.running, 0, 0, 1, ["212600000013@c.us"]⟩],
          some 0, true⟩) = 2 ∧
      (handleConfirmYes
        ⟨true, ["212600000013@c.us"],
          [⟨CampaignStatus.running, 0, 0, 1, ["212600000013@c.us"]⟩],
          some 0, true⟩).currentId = some 1 := by
  exact ⟨rfl, rfl⟩
